import Mathlib

/-!
Verification of the kafkatest mock broker (server.go).

The development shallowly embeds the package: request/response message
shapes, the checksum helper, the handler registry, the server lifecycle
and the per-connection dispatch step.  Go panics are modelled as the
error case of an Except value; the TCP listener is modelled by the
bound address it would report (host and port, already split, since the
address-splitting routines are external library code).
-/

namespace Kafkatest

/-! ### Request kind tags (server.go, const block) -/

def AnyRequest : Int := -1
def ProduceRequest : Int := 0
def FetchRequest : Int := 1
def OffsetRequest : Int := 2
def MetadataRequest : Int := 3
def OffsetCommitRequest : Int := 8
def OffsetFetchRequest : Int := 9
def ConsumerMetadataRequest : Int := 10

/-! ### External checksum and encoder, consumed by ComputeCrc.

The spec treats the wire codec and the checksum arithmetic as external
collaborators (bytes in, 32-bit value out).  They are modelled here by
their standard definitions: the reflected IEEE CRC-32 (polynomial
0xEDB88320, initial value and final xor 0xFFFFFFFF) and the codec's
encoding of an int8 (one byte) and of a byte slice (big-endian int32
length prefix, -1 for nil, then the raw bytes).  Bytes are Nat values.
-/

def crc32Round (c : Nat) : Nat :=
  if c % 2 = 1 then (c / 2) ^^^ 0xEDB88320 else c / 2

def crc32UpdateByte (crc b : Nat) : Nat :=
  crc32Round^[8] (crc ^^^ b)

/-- Modelled from the spec: the standard IEEE CRC-32 checksum
(hash/crc32 ChecksumIEEE), external to this repository. -/
def crc32ChecksumIEEE (data : List Nat) : Nat :=
  0xFFFFFFFF ^^^ data.foldl crc32UpdateByte 0xFFFFFFFF

/-- Modelled from the spec: the external codec's encoding of an int8
value as its single unsigned byte. -/
def encodeInt8 (v : Int) : List Nat :=
  [(v % 256).toNat]

/-- Modelled from the spec: the external codec's big-endian encoding of
an int32 value. -/
def encodeInt32BE (v : Int) : List Nat :=
  let u := (v % 4294967296).toNat
  [u / 16777216 % 256, u / 65536 % 256, u / 256 % 256, u % 256]

/-- Modelled from the spec: the external codec's encoding of a byte
slice: int32 length prefix (-1 when nil) followed by the raw bytes. -/
def encodeBytes : Option (List Nat) → List Nat
  | none => encodeInt32BE (-1)
  | some bs => encodeInt32BE bs.length ++ bs

/-! ### Message and the checksum helper (server.go, ComputeCrc) -/

/-- proto.Message: a Go byte slice may be nil, hence Option. -/
structure Message where
  key : Option (List Nat) := none
  value : Option (List Nat) := none
  offset : Int := 0
  crc : Nat := 0
  topic : String := ""
  partition : Int := 0
  tipOffset : Int := 0
  deriving Repr, DecidableEq

/-- server.go ComputeCrc: encode magic byte 0, attributes byte 0, the
key and the value into a buffer, in that order, and checksum it. -/
def ComputeCrc (m : Message) : Nat :=
  let buf := encodeInt8 0 ++ encodeInt8 0 ++ encodeBytes m.key ++ encodeBytes m.value
  crc32ChecksumIEEE buf

/-! ### Request and response shapes (github.com/optiopay/kafka/proto,
used by server.go).  Only the fields the package touches are needed,
plus the scalar request fields, so that the responses demonstrably
ignore them.  An error value is Option Int: none is Go nil, some e is
a kafka error with errno e. -/

def ErrUnknownTopicOrPartition : Int := 3

structure FetchReqPartition where
  id : Int
  fetchOffset : Int := 0
  maxBytes : Int := 0
  deriving Repr, DecidableEq

structure FetchReqTopic where
  name : String
  partitions : List FetchReqPartition
  deriving Repr, DecidableEq

structure FetchReq where
  correlationID : Int
  clientID : String := ""
  maxWaitTime : Int := 0
  minBytes : Int := 0
  topics : List FetchReqTopic := []
  deriving Repr, DecidableEq

structure FetchRespPartition where
  id : Int
  err : Option Int
  tipOffset : Int
  messages : List Message
  deriving Repr, DecidableEq

structure FetchRespTopic where
  name : String
  partitions : List FetchRespPartition
  deriving Repr, DecidableEq

structure FetchResp where
  correlationID : Int
  topics : List FetchRespTopic
  deriving Repr, DecidableEq

structure ProduceReqPartition where
  id : Int
  messages : List Message := []
  deriving Repr, DecidableEq

structure ProduceReqTopic where
  name : String
  partitions : List ProduceReqPartition
  deriving Repr, DecidableEq

structure ProduceReq where
  correlationID : Int
  clientID : String := ""
  requiredAcks : Int := 0
  timeout : Int := 0
  topics : List ProduceReqTopic := []
  deriving Repr, DecidableEq

structure ProduceRespPartition where
  id : Int
  err : Option Int
  offset : Int
  deriving Repr, DecidableEq

structure ProduceRespTopic where
  name : String
  partitions : List ProduceRespPartition
  deriving Repr, DecidableEq

structure ProduceResp where
  correlationID : Int
  topics : List ProduceRespTopic
  deriving Repr, DecidableEq

structure MetadataReq where
  correlationID : Int
  clientID : String := ""
  topics : List String := []
  deriving Repr, DecidableEq

structure MetadataRespBroker where
  nodeID : Int
  host : String
  port : Int
  deriving Repr, DecidableEq

structure MetadataRespPartition where
  id : Int
  err : Option Int := none
  leader : Int := 0
  replicas : List Int := []
  isrs : List Int := []
  deriving Repr, DecidableEq

structure MetadataRespTopic where
  name : String
  err : Option Int := none
  partitions : List MetadataRespPartition := []
  deriving Repr, DecidableEq

structure MetadataResp where
  correlationID : Int
  brokers : List MetadataRespBroker
  topics : List MetadataRespTopic
  deriving Repr, DecidableEq

/- The four request kinds the default responder leaves unimplemented.
The responder panics before reading any payload field, so only the
correlation identifier matters to the properties below. -/

structure OffsetReq where
  correlationID : Int
  clientID : String := ""
  deriving Repr, DecidableEq

structure ConsumerMetadataReq where
  correlationID : Int
  clientID : String := ""
  deriving Repr, DecidableEq

structure OffsetCommitReq where
  correlationID : Int
  clientID : String := ""
  deriving Repr, DecidableEq

structure OffsetFetchReq where
  correlationID : Int
  clientID : String := ""
  deriving Repr, DecidableEq

/-- The closed set of decoded request variants handleClient produces. -/
inductive Request where
  | fetch (r : FetchReq)
  | produce (r : ProduceReq)
  | offset (r : OffsetReq)
  | metadata (r : MetadataReq)
  | consumerMetadata (r : ConsumerMetadataReq)
  | offsetCommit (r : OffsetCommitReq)
  | offsetFetch (r : OffsetFetchReq)

/-- The wire kind tag that handleClient decodes each variant from. -/
def Request.kind : Request → Int
  | .fetch _ => FetchRequest
  | .produce _ => ProduceRequest
  | .offset _ => OffsetRequest
  | .metadata _ => MetadataRequest
  | .consumerMetadata _ => ConsumerMetadataRequest
  | .offsetCommit _ => OffsetCommitRequest
  | .offsetFetch _ => OffsetFetchRequest

def Request.correlationID : Request → Int
  | .fetch r => r.correlationID
  | .produce r => r.correlationID
  | .offset r => r.correlationID
  | .metadata r => r.correlationID
  | .consumerMetadata r => r.correlationID
  | .offsetCommit r => r.correlationID
  | .offsetFetch r => r.correlationID

/-- Response variants the default responder can return. -/
inductive Response where
  | fetch (r : FetchResp)
  | produce (r : ProduceResp)
  | metadata (r : MetadataResp)

def Response.correlationID : Response → Int
  | .fetch r => r.correlationID
  | .produce r => r.correlationID
  | .metadata r => r.correlationID

/-! ### Server state and registry -/

/-- The address a bound listener reports, already split into host and
port (the splitting itself is external library code). -/
structure Addr where
  host : String
  port : Int

/-- A registry entry.  The default entry is the server's own
defaultRequestHandler method, a closure over the server: it reads the
server state current at call time, which Handler.run reproduces by
taking the server as an argument.  A custom entry is a test-supplied
function; it may itself panic, hence the Except. -/
inductive RequestHandler where
  | default
  | custom (f : Request → Except String (Option Response))

/-- Go's Server struct.  Processed is the exported counter; ln is nil
until Start succeeds; handlers is the kind-to-handler map. -/
structure Server where
  Processed : Int
  ln : Option Addr
  handlers : List (Int × RequestHandler)

/-- Go map assignment: bind k to v, dropping any previous binding. -/
def mapInsert (m : List (Int × RequestHandler)) (k : Int) (v : RequestHandler) :
    List (Int × RequestHandler) :=
  (k, v) :: m.filter (fun e => e.1 != k)

/-- Go map lookup. -/
def mapLookup (m : List (Int × RequestHandler)) (k : Int) : Option RequestHandler :=
  (m.find? (fun e => e.1 == k)).map (fun e => e.2)

/-- server.go NewServer: empty registry pre-populated with the default
handler under the AnyRequest tag. -/
def NewServer : Server :=
  { Processed := 0
    ln := none
    handlers := mapInsert [] AnyRequest .default }

/-- server.go Handle: registers handler for the given message kind. -/
def Server.Handle (srv : Server) (reqKind : Int) (handler : RequestHandler) : Server :=
  { srv with handlers := mapInsert srv.handlers reqKind handler }

/-- server.go HostPort: report the bound host and port, substituting
localhost for an empty host.  Calling it with no bound listener is the
nil dereference panic, the address split errors being external. -/
def Server.HostPort (srv : Server) : Except String (String × Int) :=
  match srv.ln with
  | none => .error "nil listener"
  | some addr =>
    let host := if addr.host = "" then "localhost" else addr.host
    .ok (host, addr.port)

/-- server.go Start: panic when the listener is already bound, panic
when the bind fails, otherwise record the bound address.  The outcome
of the external bind attempt is the bindResult argument. -/
def Server.Start (srv : Server) (bindResult : Except String Addr) : Except String Server :=
  if srv.ln.isSome then .error "server already started"
  else
    match bindResult with
    | .error e => .error ("cannot start server: " ++ e)
    | .ok addr => .ok { srv with ln := some addr }

/-- server.go Close: closes the listener (an external effect); the ln
field is not cleared.  With no bound listener this is the nil
dereference panic. -/
def Server.Close (srv : Server) : Except String Server :=
  match srv.ln with
  | none => .error "nil listener"
  | some _ => .ok srv

/-! ### The default responder (server.go defaultRequestHandler) -/

def Server.defaultRequestHandler (srv : Server) : Request → Except String (Option Response)
  | .fetch req =>
    .ok (some (.fetch
      { correlationID := req.correlationID
        topics := req.topics.map fun topic =>
          { name := topic.name
            partitions := topic.partitions.map fun part =>
              { id := part.id
                err := some ErrUnknownTopicOrPartition
                tipOffset := -1
                messages := [] } } }))
  | .produce req =>
    .ok (some (.produce
      { correlationID := req.correlationID
        topics := req.topics.map fun topic =>
          { name := topic.name
            partitions := topic.partitions.map fun part =>
              { id := part.id
                err := some ErrUnknownTopicOrPartition
                offset := -1 } } }))
  | .offset _ => .error "not implemented"
  | .metadata req =>
    match srv.ln with
    | none => .error "nil listener"
    | some addr =>
      let host := if addr.host = "" then "localhost" else addr.host
      .ok (some (.metadata
        { correlationID := req.correlationID
          brokers := [{ nodeID := 1, host := host, port := addr.port }]
          topics := [] }))
  | .consumerMetadata _ => .error "not implemented"
  | .offsetCommit _ => .error "not implemented"
  | .offsetFetch _ => .error "not implemented"

/-- Invoke a registry entry the way handleClient does: the default
entry is the method closure over the server, a custom entry is the
stored function. -/
def RequestHandler.run (h : RequestHandler) (srv : Server) (req : Request) :
    Except String (Option Response) :=
  match h with
  | .default => srv.defaultRequestHandler req
  | .custom f => f req

/-- handleClient, handler resolution: the handler registered for the
kind, falling back to the AnyRequest entry. -/
def Server.resolveHandler (srv : Server) (kind : Int) : Option RequestHandler :=
  match mapLookup srv.handlers kind with
  | some fn => some fn
  | none => mapLookup srv.handlers AnyRequest

/-- One iteration of handleClient after a request has been read and
decoded: resolve a handler for the request's wire kind and invoke it.
The none branch is the no-handler panic; the returned value (none for
a nil response, which causes no write) is passed through unchanged to
the connection write. -/
def Server.handleClientStep (srv : Server) (request : Request) :
    Except String (Option Response) :=
  match srv.resolveHandler request.kind with
  | none => .error "no handler"
  | some fn => fn.run srv request

/-! ### Concrete messages exhibiting a CRC-32 collision -/

def crcCollisionMsg1 : Message := { key := some [], value := some [118, 49] }

def crcCollisionMsg2 : Message := { key := some [], value := some [6, 113, 179, 176] }

/-- A sequence of Handle calls applied to a server, in order. -/
def applyHandles (ops : List (Int × RequestHandler)) (s : Server) : Server :=
  ops.foldl (fun s p => s.Handle p.1 p.2) s

/-- The state-changing operations of the public control surface. -/
inductive ServerOp where
  | handle (kind : Int) (h : RequestHandler)
  | start (bindResult : Except String Addr)
  | close

/-- Apply one operation; a panicking operation kills the process, so
for state purposes it leaves the server as it was. -/
def applyServerOp (s : Server) : ServerOp → Server
  | .handle k h => s.Handle k h
  | .start b =>
    match s.Start b with
    | .ok s' => s'
    | .error _ => s
  | .close =>
    match s.Close with
    | .ok s' => s'
    | .error _ => s

def applyServerOps (ops : List ServerOp) (s : Server) : Server :=
  ops.foldl applyServerOp s

/-! ## Theorems -/

theorem forall2_map {α β : Type} (R : α → β → Prop) (f : α → β) (l : List α)
    (h : ∀ x ∈ l, R x (f x)) : List.Forall₂ R l (l.map f) := by
  induction l with
  | nil => exact List.Forall₂.nil
  | cons a t ih =>
    exact List.Forall₂.cons (h a (List.mem_cons_self a t))
      (ih fun x hx => h x (List.mem_cons_of_mem a hx))

/-- C1: with no kind-specific handler registered, the default responder
answers a Fetch request with a Fetch response carrying the request's
correlation identifier, topics matching the request pointwise in order
(same names, same partition counts, same partition IDs), every
partition result holding the unknown-topic-or-partition error, tip
offset -1 and an empty message list. -/
theorem fetch_default_response (srv : Server) (req : FetchReq) :
    ∃ resp : FetchResp,
      srv.defaultRequestHandler (.fetch req) = .ok (some (.fetch resp)) ∧
      resp.correlationID = req.correlationID ∧
      resp.topics.length = req.topics.length ∧
      List.Forall₂ (fun (t : FetchReqTopic) (rt : FetchRespTopic) =>
          rt.name = t.name ∧
          rt.partitions.length = t.partitions.length ∧
          List.Forall₂ (fun (p : FetchReqPartition) (rp : FetchRespPartition) =>
              rp.id = p.id ∧ rp.err = some ErrUnknownTopicOrPartition ∧
              rp.tipOffset = -1 ∧ rp.messages = [])
            t.partitions rt.partitions)
        req.topics resp.topics := by
  refine ⟨_, rfl, rfl, by simp, ?_⟩
  apply forall2_map
  intro t ht
  refine ⟨rfl, by simp, ?_⟩
  apply forall2_map
  intro p hp
  exact ⟨rfl, rfl, rfl, rfl⟩

/-- C2: with no kind-specific handler registered, the default responder
answers a Produce request with a Produce response carrying the
request's correlation identifier, topics matching the request
pointwise in order, every partition result holding the
unknown-topic-or-partition error and offset -1. -/
theorem produce_default_response (srv : Server) (req : ProduceReq) :
    ∃ resp : ProduceResp,
      srv.defaultRequestHandler (.produce req) = .ok (some (.produce resp)) ∧
      resp.correlationID = req.correlationID ∧
      resp.topics.length = req.topics.length ∧
      List.Forall₂ (fun (t : ProduceReqTopic) (rt : ProduceRespTopic) =>
          rt.name = t.name ∧
          rt.partitions.length = t.partitions.length ∧
          List.Forall₂ (fun (p : ProduceReqPartition) (rp : ProduceRespPartition) =>
              rp.id = p.id ∧ rp.err = some ErrUnknownTopicOrPartition ∧
              rp.offset = -1)
            t.partitions rt.partitions)
        req.topics resp.topics := by
  refine ⟨_, rfl, rfl, by simp, ?_⟩
  apply forall2_map
  intro t ht
  refine ⟨rfl, by simp, ?_⟩
  apply forall2_map
  intro p hp
  exact ⟨rfl, rfl, rfl⟩

/-- C3: with no kind-specific handler registered and the listener bound,
the default responder answers a Metadata request with the request's
correlation identifier, exactly one broker entry with node id 1 and
the server's own bound host and port (host replaced by localhost when
empty, exactly as HostPort reports it), and an empty topic list. -/
theorem metadata_default_response (srv : Server) (req : MetadataReq) (addr : Addr)
    (h : srv.ln = some addr) :
    srv.defaultRequestHandler (.metadata req) = .ok (some (.metadata
      { correlationID := req.correlationID
        brokers := [{ nodeID := 1
                      host := if addr.host = "" then "localhost" else addr.host
                      port := addr.port }]
        topics := [] })) ∧
    srv.HostPort = .ok (if addr.host = "" then "localhost" else addr.host, addr.port) := by
  constructor
  · simp only [Server.defaultRequestHandler, h]
  · simp only [Server.HostPort, h]

theorem metadata_default_response_witness :
    ({ Processed := 0, ln := some { host := "", port := 9092 }, handlers := [] } :
        Server).defaultRequestHandler (.metadata { correlationID := 5 }) =
      .ok (some (.metadata
        { correlationID := 5
          brokers := [{ nodeID := 1
                        host := if ("" : String) = "" then "localhost" else ""
                        port := 9092 }]
          topics := [] })) ∧
    ({ Processed := 0, ln := some { host := "", port := 9092 }, handlers := [] } :
        Server).HostPort = .ok (if ("" : String) = "" then "localhost" else "", 9092) :=
  metadata_default_response
    { Processed := 0, ln := some { host := "", port := 9092 }, handlers := [] }
    { correlationID := 5 } { host := "", port := 9092 } rfl

/-- C4: Offset, ConsumerMetadata, OffsetCommit and OffsetFetch requests
reaching the default responder panic with a not-implemented signal and
produce no response value. -/
theorem unimplemented_kinds_panic (srv : Server) (r1 : OffsetReq)
    (r2 : ConsumerMetadataReq) (r3 : OffsetCommitReq) (r4 : OffsetFetchReq) :
    srv.defaultRequestHandler (.offset r1) = .error "not implemented" ∧
    srv.defaultRequestHandler (.consumerMetadata r2) = .error "not implemented" ∧
    srv.defaultRequestHandler (.offsetCommit r3) = .error "not implemented" ∧
    srv.defaultRequestHandler (.offsetFetch r4) = .error "not implemented" :=
  ⟨rfl, rfl, rfl, rfl⟩

theorem find_filter_ne (m : List (Int × RequestHandler)) (k k' : Int) (h : k' ≠ k) :
    (m.filter (fun e => e.1 != k)).find? (fun e => e.1 == k') =
      m.find? (fun e => e.1 == k') := by
  induction m with
  | nil => rfl
  | cons a t ih =>
    by_cases ha : a.1 = k
    · have hne : (a.1 == k') = false := by
        rw [ha]
        exact beq_eq_false_iff_ne.mpr (Ne.symm h)
      rw [List.filter_cons_of_neg (by simp [ha]), ih, List.find?_cons_of_neg _ (by simp [hne])]
    · rw [List.filter_cons_of_pos (by simp [ha])]
      by_cases hk : a.1 = k'
      · rw [List.find?_cons_of_pos _ (by simp [hk]), List.find?_cons_of_pos _ (by simp [hk])]
      · rw [List.find?_cons_of_neg _ (by simp [hk]), List.find?_cons_of_neg _ (by simp [hk]),
          ih]

theorem mapLookup_insert (m : List (Int × RequestHandler)) (k k' : Int)
    (v : RequestHandler) :
    mapLookup (mapInsert m k v) k' = if k' = k then some v else mapLookup m k' := by
  unfold mapLookup mapInsert
  by_cases hk : k' = k
  · subst hk
    rw [List.find?_cons_of_pos _ (by simp)]
    simp
  · have hne : ((k, v).1 == k') = false :=
      beq_eq_false_iff_ne.mpr (fun hh => hk hh.symm)
    rw [List.find?_cons_of_neg _ (by simp [hne]), find_filter_ne m k k' hk, if_neg hk]

theorem applyHandles_any_isSome (ops : List (Int × RequestHandler)) (s : Server)
    (h : (mapLookup s.handlers AnyRequest).isSome = true) :
    (mapLookup (applyHandles ops s).handlers AnyRequest).isSome = true := by
  induction ops generalizing s with
  | nil => exact h
  | cons p t ih =>
    show (mapLookup (applyHandles t (s.Handle p.1 p.2)).handlers AnyRequest).isSome = true
    apply ih
    show (mapLookup (mapInsert s.handlers p.1 p.2) AnyRequest).isSome = true
    rw [mapLookup_insert]
    split
    · rfl
    · exact h

/-- C5: in every registry state reachable from construction by Handle
calls, the AnyRequest fallback entry is present, resolution succeeds
for every kind, resolution returns the kind's own entry when one
exists and otherwise the entry registered under the AnyRequest
fallback tag, and the dispatch step never takes its no-handler panic
branch: it always invokes some resolved handler. -/
theorem resolveHandler_total (ops : List (Int × RequestHandler)) (kind : Int) :
    (mapLookup (applyHandles ops NewServer).handlers AnyRequest).isSome = true ∧
    ((applyHandles ops NewServer).resolveHandler kind).isSome = true ∧
    (∀ h, mapLookup (applyHandles ops NewServer).handlers kind = some h →
      (applyHandles ops NewServer).resolveHandler kind = some h) ∧
    (mapLookup (applyHandles ops NewServer).handlers kind = none →
      (applyHandles ops NewServer).resolveHandler kind =
        mapLookup (applyHandles ops NewServer).handlers AnyRequest) ∧
    (∀ req : Request, ∃ fn,
      (applyHandles ops NewServer).resolveHandler req.kind = some fn ∧
      (applyHandles ops NewServer).handleClientStep req =
        fn.run (applyHandles ops NewServer) req) := by
  have hany : (mapLookup (applyHandles ops NewServer).handlers AnyRequest).isSome = true :=
    applyHandles_any_isSome ops NewServer rfl
  have hres : ∀ k, ((applyHandles ops NewServer).resolveHandler k).isSome = true := by
    intro k
    unfold Server.resolveHandler
    cases hk : mapLookup (applyHandles ops NewServer).handlers k with
    | some fn => rfl
    | none => exact hany
  refine ⟨hany, hres kind, ?_, ?_, ?_⟩
  · intro h hh
    unfold Server.resolveHandler
    rw [hh]
  · intro hnone
    unfold Server.resolveHandler
    rw [hnone]
  · intro req
    cases hr : (applyHandles ops NewServer).resolveHandler req.kind with
    | none =>
      have := hres req.kind
      rw [hr] at this
      cases this
    | some fn =>
      refine ⟨fn, rfl, ?_⟩
      unfold Server.handleClientStep
      rw [hr]

theorem resolveHandler_total_witness :
    (mapLookup (applyHandles [(FetchRequest, .default)] NewServer).handlers
      AnyRequest).isSome = true ∧
    ((applyHandles [(FetchRequest, .default)] NewServer).resolveHandler
      FetchRequest).isSome = true ∧
    (applyHandles [(FetchRequest, .default)] NewServer).resolveHandler FetchRequest =
      some .default ∧
    (applyHandles [(FetchRequest, .default)] NewServer).resolveHandler ProduceRequest =
      mapLookup (applyHandles [(FetchRequest, .default)] NewServer).handlers AnyRequest :=
  ⟨(resolveHandler_total [(FetchRequest, .default)] FetchRequest).1,
   (resolveHandler_total [(FetchRequest, .default)] FetchRequest).2.1,
   (resolveHandler_total [(FetchRequest, .default)] FetchRequest).2.2.1 .default rfl,
   (resolveHandler_total [(FetchRequest, .default)] ProduceRequest).2.2.2.1 rfl⟩

/-- C6: every response the default responder produces carries exactly
the correlation identifier of the request it answers, and the dispatch
step passes the resolved handler's output through unchanged. -/
theorem correlation_preserved :
    (∀ (srv : Server) (req : Request) (resp : Response),
        srv.defaultRequestHandler req = .ok (some resp) →
        resp.correlationID = req.correlationID) ∧
    (∀ (srv : Server) (req : Request) (fn : RequestHandler),
        srv.resolveHandler req.kind = some fn →
        srv.handleClientStep req = fn.run srv req) := by
  constructor
  · intro srv req resp h
    cases req with
    | fetch r =>
      simp only [Server.defaultRequestHandler, Except.ok.injEq, Option.some.injEq] at h
      subst h
      rfl
    | produce r =>
      simp only [Server.defaultRequestHandler, Except.ok.injEq, Option.some.injEq] at h
      subst h
      rfl
    | offset r => exact absurd h (by simp [Server.defaultRequestHandler])
    | metadata r =>
      cases hln : srv.ln with
      | none => simp [Server.defaultRequestHandler, hln] at h
      | some addr =>
        simp only [Server.defaultRequestHandler, hln, Except.ok.injEq,
          Option.some.injEq] at h
        subst h
        rfl
    | consumerMetadata r => exact absurd h (by simp [Server.defaultRequestHandler])
    | offsetCommit r => exact absurd h (by simp [Server.defaultRequestHandler])
    | offsetFetch r => exact absurd h (by simp [Server.defaultRequestHandler])
  · intro srv req fn h
    unfold Server.handleClientStep
    rw [h]

theorem correlation_preserved_witness :
    (Response.fetch { correlationID := 7, topics := [] }).correlationID =
      (Request.fetch { correlationID := 7 }).correlationID ∧
    NewServer.handleClientStep (.fetch { correlationID := 7 }) =
      RequestHandler.default.run NewServer (.fetch { correlationID := 7 }) :=
  ⟨correlation_preserved.1 NewServer (.fetch { correlationID := 7 })
      (.fetch { correlationID := 7, topics := [] }) rfl,
   correlation_preserved.2 NewServer (.fetch { correlationID := 7 }) .default rfl⟩

/-- C7: ComputeCrc is the IEEE CRC-32 of the byte sequence encoding the
magic byte 0, the attributes byte 0, the key and the value, in that
order, and depends on nothing but the key and value bytes. -/
theorem computeCrc_spec (m m₁ m₂ : Message) :
    ComputeCrc m = crc32ChecksumIEEE
      (encodeInt8 0 ++ encodeInt8 0 ++ encodeBytes m.key ++ encodeBytes m.value) ∧
    (m₁.key = m₂.key → m₁.value = m₂.value → ComputeCrc m₁ = ComputeCrc m₂) := by
  refine ⟨rfl, fun hk hv => ?_⟩
  unfold ComputeCrc
  rw [hk, hv]

theorem computeCrc_spec_witness :
    ComputeCrc { key := some [107], value := some [118] } = crc32ChecksumIEEE
      (encodeInt8 0 ++ encodeInt8 0 ++ encodeBytes (some [107]) ++
        encodeBytes (some [118])) ∧
    ComputeCrc { key := some [107], value := some [118], offset := 3 } =
      ComputeCrc { key := some [107], value := some [118], crc := 42, topic := "t" } :=
  ⟨(computeCrc_spec { key := some [107], value := some [118] }
      { key := some [107], value := some [118], offset := 3 }
      { key := some [107], value := some [118], crc := 42, topic := "t" }).1,
   (computeCrc_spec { key := some [107], value := some [118] }
      { key := some [107], value := some [118], offset := 3 }
      { key := some [107], value := some [118], crc := 42, topic := "t" }).2 rfl rfl⟩

set_option maxRecDepth 100000 in
/-- C8 counterexample: two messages with equal keys and different value
byte sequences whose ComputeCrc results coincide, refuting the claim
that changing the value bytes always changes the result. -/
theorem computeCrc_collision :
    crcCollisionMsg1.key = crcCollisionMsg2.key ∧
    crcCollisionMsg1.value ≠ crcCollisionMsg2.value ∧
    ComputeCrc crcCollisionMsg1 = ComputeCrc crcCollisionMsg2 :=
  ⟨rfl, by decide, by decide⟩

set_option maxRecDepth 100000 in
/-- C8 amended: identical (key, value) pairs always give identical
ComputeCrc results, and the spec's own fixtures (key k, value v versus
value v2) give different results; distinctness does not hold for all
differing inputs. -/
theorem computeCrc_deterministic_fixtures (m₁ m₂ : Message) :
    (m₁.key = m₂.key → m₁.value = m₂.value → ComputeCrc m₁ = ComputeCrc m₂) ∧
    ComputeCrc { key := some [107], value := some [118] } ≠
      ComputeCrc { key := some [107], value := some [118, 50] } := by
  refine ⟨fun hk hv => ?_, by decide⟩
  unfold ComputeCrc
  rw [hk, hv]

theorem computeCrc_deterministic_fixtures_witness :
    ComputeCrc { key := some [1], value := some [2], offset := 9 } =
      ComputeCrc { key := some [1], value := some [2] } ∧
    ComputeCrc { key := some [107], value := some [118] } ≠
      ComputeCrc { key := some [107], value := some [118, 50] } :=
  ⟨(computeCrc_deterministic_fixtures { key := some [1], value := some [2], offset := 9 }
      { key := some [1], value := some [2] }).1 rfl rfl,
   (computeCrc_deterministic_fixtures { key := some [1], value := some [2], offset := 9 }
      { key := some [1], value := some [2] }).2⟩

/-- C9: Start on a server whose listener is already bound panics with
the already-started signal and binds nothing; a bind failure panics;
a successful Start requires an unbound listener, leaves it bound, and
makes any later Start panic, so binding succeeds at most once. -/
theorem start_once (srv : Server) (bindResult : Except String Addr) :
    (∀ addr, srv.ln = some addr → srv.Start bindResult = .error "server already started") ∧
    (∀ e, bindResult = .error e → srv.ln = none →
      srv.Start bindResult = .error ("cannot start server: " ++ e)) ∧
    (∀ srv', srv.Start bindResult = .ok srv' →
      srv.ln = none ∧ srv'.ln.isSome = true ∧
      ∀ bindResult', srv'.Start bindResult' = .error "server already started") := by
  refine ⟨?_, ?_, ?_⟩
  · intro addr h
    simp [Server.Start, h]
  · intro e he hn
    simp [Server.Start, hn, he]
  · intro srv' h
    unfold Server.Start at h
    split at h
    · cases h
    · cases bindResult with
      | error e => cases h
      | ok addr =>
        cases h
        refine ⟨?_, rfl, ?_⟩
        · cases hln : srv.ln with
          | none => rfl
          | some a =>
            rename_i hcond
            rw [hln] at hcond
            exact absurd rfl hcond
        · intro bindResult'
          simp [Server.Start]

theorem start_once_witness :
    ({ Processed := 0, ln := some { host := "127.0.0.1", port := 9092 }, handlers := [] } :
        Server).Start (.ok { host := "127.0.0.1", port := 9092 }) =
      .error "server already started" ∧
    NewServer.Start (.error "boom") = .error ("cannot start server: " ++ "boom") ∧
    (NewServer.ln = none ∧
      ({ NewServer with ln := some { host := "127.0.0.1", port := 9092 } } :
          Server).ln.isSome = true ∧
      ({ NewServer with ln := some { host := "127.0.0.1", port := 9092 } } :
          Server).Start (.error "again") = .error "server already started") :=
  ⟨(start_once _ (.ok { host := "127.0.0.1", port := 9092 })).1
      { host := "127.0.0.1", port := 9092 } rfl,
   (start_once NewServer (.error "boom")).2.1 "boom" rfl rfl,
   ((start_once NewServer (.ok { host := "127.0.0.1", port := 9092 })).2.2
      { NewServer with ln := some { host := "127.0.0.1", port := 9092 } } rfl).1,
   ((start_once NewServer (.ok { host := "127.0.0.1", port := 9092 })).2.2
      { NewServer with ln := some { host := "127.0.0.1", port := 9092 } } rfl).2.1,
   ((start_once NewServer (.ok { host := "127.0.0.1", port := 9092 })).2.2
      { NewServer with ln := some { host := "127.0.0.1", port := 9092 } } rfl).2.2
      (.error "again")⟩

/-- C10: the Processed counter is 0 at construction, every
state-changing operation (Handle, Start, Close) leaves it unchanged,
and dispatch never writes server state at all, so along any operation
sequence it stays 0. -/
theorem processed_never_incremented :
    NewServer.Processed = 0 ∧
    (∀ (s : Server) (k : Int) (h : RequestHandler),
      (s.Handle k h).Processed = s.Processed) ∧
    (∀ (s : Server) (b : Except String Addr) (s' : Server),
      s.Start b = .ok s' → s'.Processed = s.Processed) ∧
    (∀ (s s' : Server), s.Close = .ok s' → s'.Processed = s.Processed) ∧
    (∀ ops : List ServerOp, (applyServerOps ops NewServer).Processed = 0) := by
  have hstart : ∀ (s : Server) (b : Except String Addr) (s' : Server),
      s.Start b = .ok s' → s'.Processed = s.Processed := by
    intro s b s' h
    unfold Server.Start at h
    split at h
    · cases h
    · cases b with
      | error e => cases h
      | ok addr =>
        cases h
        rfl
  have hclose : ∀ (s s' : Server), s.Close = .ok s' → s'.Processed = s.Processed := by
    intro s s' h
    unfold Server.Close at h
    split at h
    · cases h
    · cases h
      rfl
  have hstep : ∀ (s : Server) (op : ServerOp),
      (applyServerOp s op).Processed = s.Processed := by
    intro s op
    cases op with
    | handle k h => rfl
    | start b =>
      show (match s.Start b with | .ok s' => s' | .error _ => s).Processed = s.Processed
      cases hb : s.Start b with
      | ok s' => exact hstart s b s' hb
      | error e => rfl
    | close =>
      show (match s.Close with | .ok s' => s' | .error _ => s).Processed = s.Processed
      cases hb : s.Close with
      | ok s' => exact hclose s s' hb
      | error e => rfl
  have hfold : ∀ (ops : List ServerOp) (s : Server),
      (applyServerOps ops s).Processed = s.Processed := by
    intro ops
    induction ops with
    | nil => intro s; rfl
    | cons op t ih =>
      intro s
      show (applyServerOps t (applyServerOp s op)).Processed = s.Processed
      rw [ih (applyServerOp s op), hstep]
  exact ⟨rfl, fun s k h => rfl, hstart, hclose, fun ops => hfold ops NewServer⟩

theorem processed_never_incremented_witness :
    NewServer.Processed = 0 ∧
    (NewServer.Handle FetchRequest .default).Processed = NewServer.Processed ∧
    ({ NewServer with ln := some { host := "h", port := 1 } } : Server).Processed =
      NewServer.Processed ∧
    ({ Processed := 0, ln := some { host := "h", port := 1 }, handlers := [] } :
      Server).Processed =
      ({ Processed := 0, ln := some { host := "h", port := 1 }, handlers := [] } :
        Server).Processed ∧
    (applyServerOps [.handle FetchRequest .default, .close] NewServer).Processed = 0 :=
  ⟨processed_never_incremented.1,
   processed_never_incremented.2.1 NewServer FetchRequest .default,
   processed_never_incremented.2.2.1 NewServer (.ok { host := "h", port := 1 })
     { NewServer with ln := some { host := "h", port := 1 } } rfl,
   processed_never_incremented.2.2.2.1
     { Processed := 0, ln := some { host := "h", port := 1 }, handlers := [] }
     { Processed := 0, ln := some { host := "h", port := 1 }, handlers := [] } rfl,
   processed_never_incremented.2.2.2.2
     [.handle FetchRequest .default, .close]⟩

end Kafkatest
